import Mathlib

/-
  Verification development for the pdftool repository (src/app.py).

  The embedding models the conversion pipeline of app.py:
  - the text-extraction PowerPoint-to-PDF backend (convert_pptx_to_pdf_text),
  - the LibreOffice headless backend (convert_pptx_to_pdf_libreoffice),
  - the remote HTTP API backend (convert_pptx_to_pdf_api),
  - the method dispatcher (convert_pptx_to_pdf),
  - the Poppler discovery function (check_poppler_available),
  - the PDF-to-TIFF rasterization wrapper (convert_pdf_to_tiff).

  External collaborators (python-pptx, reportlab, pdf2image, PIL, the OS and
  subprocesses) are modelled as oracles carried in environment records:
  each oracle field records the outcome the collaborator would produce, and
  the definitions below reproduce, branch for branch, what app.py does with
  those outcomes.  Side effects are made explicit: st.warning / st.error /
  st.info calls become entries of warnings / errors / infos lists, launched
  subprocesses and HTTP requests become entries of a calls list, and the
  temporary files staged during a conversion that still exist when the call
  returns are collected in a tempLeft list.
-/

namespace PdfTool

/-- A shape on a slide.  `hasText` models the Python test
`hasattr(shape, "text")`; `text` is the shape text (app.py line 247). -/
structure Shape where
  hasText : Bool
  text : String
  deriving DecidableEq

/-- A slide: the ordered shapes exposed by the presentation parsing library. -/
structure Slide where
  shapes : List Shape
  deriving DecidableEq

/-- A parsed presentation: ordered slides (`prs.slides` in app.py). -/
structure Pres where
  slides : List Slide
  deriving DecidableEq

/-- The two paragraph styles built in convert_pptx_to_pdf_text
(app.py lines 216-231): the custom title style and the custom body style. -/
inductive RStyle
  | title
  | body
  deriving DecidableEq

/-- A reportlab flowable as appended to `story` by convert_pptx_to_pdf_text:
a paragraph with its style, a spacer (width, height in hundredths of an inch,
so `spacer 1 20` stands for `Spacer(1, 0.2*inch)`), or a page break. -/
inductive Flowable
  | paragraph (text : String) (style : RStyle)
  | spacer (w : Nat) (hCentiInch : Nat)
  | pageBreak
  deriving DecidableEq

/-- The characters Python str.strip removes by default. -/
def isPySpace (c : Char) : Bool :=
  c = ' ' || c = '\t' || c = '\n' || c = '\r' || c = '\x0b' || c = '\x0c'

/-- Python str.strip, written by structural recursion on the character list
so that closed instances compute inside the kernel. -/
def pyStrip (s : String) : String :=
  ⟨((s.data.dropWhile isPySpace).reverse.dropWhile isPySpace).reverse⟩

/-- Split a character list at every occurrence of a separator character. -/
def splitChar (sep : Char) : List Char → List (List Char)
  | [] => [[]]
  | c :: rest =>
    let r := splitChar sep rest
    if c = sep then [] :: r
    else
      match r with
      | [] => [[c]]
      | h :: t => (c :: h) :: t

/-- str.split for a one-character separator, structurally recursive. -/
def pySplit (sep : Char) (s : String) : List String :=
  (splitChar sep s.data).map fun l => ⟨l⟩

/-- str.lower, structurally recursive. -/
def pyLower (s : String) : String :=
  ⟨s.data.map Char.toLower⟩

/-- app.py line 253: `text.replace('&','&amp;').replace('<','&lt;').replace('>','&gt;')`. -/
def cleanText (s : String) : String :=
  ((s.replace "&" "&amp;").replace "<" "&lt;").replace ">" "&gt;"

/-- app.py lines 245-248: collect `shape.text.strip()` for every shape that
has a text attribute and whose stripped text is non-empty. -/
def shapeTexts (sl : Slide) : List String :=
  (sl.shapes.filter (fun sh => sh.hasText && pyStrip sh.text ≠ "")).map
    (fun sh => pyStrip sh.text)

/-- app.py lines 251-259: for one collected text, clean it, split it on
newlines, and for each non-blank line append a body paragraph followed by a
`Spacer(1, 0.1*inch)`. -/
def paraFlows (text : String) : List Flowable :=
  (pySplit '\n' (cleanText text)).flatMap fun para =>
    if pyStrip para ≠ "" then
      [Flowable.paragraph (pyStrip para) RStyle.body, Flowable.spacer 1 10]
    else []

/-- app.py lines 250-261: the body of one slide section.  If the slide
contributed no text, a single placeholder body paragraph is emitted
(line 261, exact source text including its capital N). -/
def slideBody (sl : Slide) : List Flowable :=
  let tc := shapeTexts sl
  if tc = [] then
    [Flowable.paragraph "(No text content on this slide)" RStyle.body]
  else
    tc.flatMap paraFlows

/-- The title paragraph of slide index `i` (app.py line 241):
`Paragraph(f"Slide {i + 1}", title_style)`. -/
def titlePara (i : Nat) : Flowable :=
  Flowable.paragraph ("Slide " ++ toString (i + 1)) RStyle.title

/-- app.py lines 241-261: the flowables of one slide section: title paragraph,
`Spacer(1, 0.2*inch)`, then the slide body. -/
def slideSection (i : Nat) (sl : Slide) : List Flowable :=
  titlePara i :: Flowable.spacer 1 20 :: slideBody sl

/-- app.py lines 236-261: the enumerate loop, starting at index `i`:
a page break is appended before every slide whose index is positive, then the
slide section. -/
def storyFrom : Nat → List Slide → List Flowable
  | _, [] => []
  | i, sl :: rest =>
    ((if 0 < i then [Flowable.pageBreak] else []) ++ slideSection i sl)
      ++ storyFrom (i + 1) rest

/-- The full `story` built for a presentation (loop started at index 0). -/
def buildStory (slides : List Slide) : List Flowable :=
  storyFrom 0 slides

/-- Whether a flowable is a section-title paragraph. -/
def isTitle : Flowable → Bool
  | .paragraph _ .title => true
  | _ => false

/-- Whether a flowable is a page break. -/
def isPageBreak : Flowable → Bool
  | .pageBreak => true
  | _ => false

/-- `Path(name).suffix`: the final dot extension including the dot, or the
empty string when the name has no dot. -/
def fileSuffix (name : String) : String :=
  match pySplit '.' name with
  | [] => ""
  | [_] => ""
  | parts => "." ++ (parts.getLast?.getD "")

/-- An observable external call made by a backend: a spawned subprocess with
its argument vector, or an HTTP POST to a URL. -/
inductive ExtCall
  | subprocessRun (cmd : List String)
  | httpPost (url : String)
  deriving DecidableEq

/-- Whether an external call is an HTTP request. -/
def ExtCall.isHttpPost : ExtCall → Bool
  | .httpPost _ => true
  | _ => false

/-- The PDF bytes a presentation backend can return: a document built by
reportlab from a story, the bytes of the file LibreOffice produced, or the
body of the HTTP response. -/
inductive PdfOutput
  | builtFrom (story : List Flowable)
  | fileBytes (bytes : List Nat)
  | httpBytes (bytes : List Nat)
  deriving DecidableEq

/-- The observable outcome of one presentation-to-PDF backend call:
the returned value (`none` models Python returning None after st.error),
the external calls made, the st.warning and st.error messages shown, and the
staging temp paths still existing on the filesystem when the call returns. -/
structure ConvResult where
  result : Option PdfOutput
  calls : List ExtCall
  warnings : List String
  errors : List String
  tempLeft : List String
  deriving DecidableEq

/-- An uploaded presentation file: its name, and the outcome
`Presentation(tmp_path)` would produce for its contents — a parsed
presentation, or the message of the exception the parser raises. -/
structure UploadedFile where
  name : String
  parse : Except String Pres

/-- app.py line 190. -/
def pptWarningMsg : String :=
  "⚠️ Note: .ppt files (older format) may not work perfectly. For best results, use .pptx files."

/-- app.py line 200: the message of the ValueError raised for .ppt input. -/
def pptUnsupportedMsg : String :=
  "The .ppt format (PowerPoint 97-2003) is not directly supported. Please convert your file to .pptx format first, or use LibreOffice to convert it."

/-- app.py line 273: the st.error wrapper of the text backend. -/
def textBackendError (m : String) : String :=
  "Error converting PowerPoint to PDF: " ++ m

/-- app.py lines 181-276, convert_pptx_to_pdf_text.
`tmpName` is the path the OS picks for `NamedTemporaryFile(delete=False)`
(line 194); the staged file is created on every run.  On the success path
line 268 unlinks it (tempLeft = []).  The two exception paths — the .ppt
ValueError raised at line 200 and a parse failure of Presentation() at
line 202 — are caught by the handler at lines 272-276, which shows st.error
and returns None without unlinking, so the staged file is still on disk
(tempLeft = [tmpName]).  reportlab document assembly (doc.build) is modelled
as the total serialization of the story.  The backend makes no external
calls. -/
def convert_pptx_to_pdf_text (file : UploadedFile) (tmpName : String) : ConvResult :=
  let ext := pyLower (fileSuffix file.name)
  let warns := if ext = ".ppt" then [pptWarningMsg] else []
  if ext = ".ppt" then
    { result := none, calls := [], warnings := warns,
      errors := [textBackendError pptUnsupportedMsg], tempLeft := [tmpName] }
  else
    match file.parse with
    | .error e =>
      { result := none, calls := [], warnings := warns,
        errors := [textBackendError e], tempLeft := [tmpName] }
    | .ok prs =>
      { result := some (.builtFrom (buildStory prs.slides)), calls := [],
        warnings := warns, errors := [], tempLeft := [] }

/-- The outcome of the bounded LibreOffice subprocess invocation
(app.py line 117): it completed with a return code and captured stderr, or
the 60 second timeout expired (TimeoutExpired raised). -/
inductive LOOutcome
  | completed (returncode : Int) (stderr : String)
  | timeout
  deriving DecidableEq

/-- The ambient state a conversion request runs in: the PATH lookups for the
office binaries, the outcome the LibreOffice subprocess would have, whether
the expected output PDF appears and its bytes, the HTTP response the remote
endpoint would give, the credential sources, and the names the OS picks for
the staging temp file / temp directory. -/
structure SysEnv where
  whichLibreoffice : Option String
  whichSoffice : Option String
  loRun : LOOutcome
  loOutputExists : Bool
  loOutputBytes : List Nat
  httpStatus : Int
  httpBody : String
  httpContent : List Nat
  sessionApiKey : Option String
  envApiKey : Option String
  tmpName : String
  tmpDir : String

/-- app.py line 93: `shutil.which('libreoffice') or shutil.which('soffice')`. -/
def loBinary (env : SysEnv) : Option String :=
  match env.whichLibreoffice with
  | some p => some p
  | none => env.whichSoffice

/-- app.py line 134: the st.error wrapper of the LibreOffice backend. -/
def loErrorMsg (m : String) : String :=
  "Error converting with LibreOffice: " ++ m

/-- app.py line 95: the ValueError raised when neither binary is found. -/
def loMissingMsg : String :=
  "LibreOffice is not installed. Install it with: brew install --cask libreoffice"

/-- Stands for the str() of subprocess.TimeoutExpired; the exact rendering is
not semantically load-bearing. -/
def loTimeoutMsg : String :=
  "Command timed out after 60 seconds"

/-- app.py lines 86-135, convert_pptx_to_pdf_libreoffice.
The whole body runs inside `with tempfile.TemporaryDirectory()`, whose
context manager removes the directory (and the staged input inside it) on
every exit path, so tempLeft is always [].  Branches, in source order:
missing binary (line 95 ValueError, caught at 133), the subprocess call
(line 117; a timeout raises TimeoutExpired, caught at 133), non-zero exit
(line 120), missing output file (line 125), success (lines 128-131).
Note there is no check of the input extension: the subprocess is launched
for any input, .ppt included. -/
def convert_pptx_to_pdf_libreoffice (env : SysEnv) (file : UploadedFile) : ConvResult :=
  match loBinary env with
  | none =>
    { result := none, calls := [], warnings := [],
      errors := [loErrorMsg loMissingMsg], tempLeft := [] }
  | some p =>
    let inputPath := env.tmpDir ++ "/" ++ file.name
    let call := ExtCall.subprocessRun
      [p, "--headless", "--convert-to", "pdf", "--outdir", env.tmpDir, inputPath]
    match env.loRun with
    | .timeout =>
      { result := none, calls := [call], warnings := [],
        errors := [loErrorMsg loTimeoutMsg], tempLeft := [] }
    | .completed rc stderr =>
      if rc ≠ 0 then
        { result := none, calls := [call], warnings := [],
          errors := [loErrorMsg ("LibreOffice conversion failed: " ++ stderr)],
          tempLeft := [] }
      else if !env.loOutputExists then
        { result := none, calls := [call], warnings := [],
          errors := [loErrorMsg "PDF file was not generated"], tempLeft := [] }
      else
        { result := some (.fileBytes env.loOutputBytes), calls := [call],
          warnings := [], errors := [], tempLeft := [] }

/-- app.py line 144. -/
def apiKeyWarningMsg : String :=
  "⚠️ API key not provided. Using LibreOffice method instead."

/-- app.py line 154: the placeholder conversion endpoint. -/
def cloudconvertUrl : String :=
  "https://api.cloudconvert.com/v2/convert"

/-- app.py line 166: the st.error wrapper of the API backend. -/
def apiErrorMsg (m : String) : String :=
  "Error converting with API: " ++ m

/-- Python truthiness of the api_key value: None and the empty string are
falsy (`if not api_key`, app.py line 142). -/
def falsy : Option String → Bool
  | none => true
  | some s => s == ""

/-- app.py lines 137-167, convert_pptx_to_pdf_api.
With a falsy key: st.warning at line 144, then the LibreOffice backend is
invoked and its result returned unchanged.  With a truthy key: the multipart
POST at line 153; a non-200 status raises the ValueError of line 161 (caught
at 165), a 200 status returns response.content.  No input-format check is
performed: the upload happens for any input, .ppt included. -/
def convert_pptx_to_pdf_api (env : SysEnv) (file : UploadedFile)
    (apiKey : Option String) : ConvResult :=
  if falsy apiKey then
    let fb := convert_pptx_to_pdf_libreoffice env file
    { fb with warnings := apiKeyWarningMsg :: fb.warnings }
  else
    let call := ExtCall.httpPost cloudconvertUrl
    if env.httpStatus ≠ 200 then
      { result := none, calls := [call], warnings := [],
        errors := [apiErrorMsg ("API conversion failed: " ++ env.httpBody)],
        tempLeft := [] }
    else
      { result := some (.httpBytes env.httpContent), calls := [call],
        warnings := [], errors := [], tempLeft := [] }

/-- app.py line 173: `st.session_state.get('api_key', None) or
os.getenv('CONVERSION_API_KEY')` — Python `or` takes the second operand when
the first is falsy (None or the empty string). -/
def orFalsy (a b : Option String) : Option String :=
  match a with
  | none => b
  | some s => if s == "" then b else some s

/-- app.py lines 169-179, convert_pptx_to_pdf: dispatch on the method
string; the api method first assembles the credential from the session value
and the CONVERSION_API_KEY environment variable. -/
def convert_pptx_to_pdf (env : SysEnv) (file : UploadedFile)
    (method : String) : ConvResult :=
  if method = "api" then
    convert_pptx_to_pdf_api env file (orFalsy env.sessionApiKey env.envApiKey)
  else if method = "libreoffice" then
    convert_pptx_to_pdf_libreoffice env file
  else
    convert_pptx_to_pdf_text file env.tmpName

/-! ## Backend Locator: check_poppler_available (app.py lines 278-340)

The function consults the process environment and filesystem through a
`RawEnv` of oracles.  Each oracle returns `Except Unit α`: `.error ()` means
the underlying Python call raised an exception.  The version-query oracle
folds the `.decode()` calls of the captured output into the same outcome,
since they sit in the same try-block as the `subprocess.run` call. -/

/-- The observable data of a completed version-query subprocess: its return
code and whether the decoded, lowercased combined output contains the word
version (app.py lines 290-291). -/
structure RunRes where
  returncode : Int
  hasVersion : Bool
  deriving DecidableEq

/-- Oracles for every outside-world call check_poppler_available makes.
`.error ()` models the call raising. -/
structure RawEnv where
  popplerPathEnv : Option String
  which : String → Except Unit (Option String)
  pathExists : String → Except Unit Bool
  run : String → String → Except Unit RunRes

/-- app.py lines 283-294: the POPPLER_PATH environment-variable branch.
Returns `some p` for an early `return pdftoppm_path`, `none` to fall through
to the candidate list.  The version test sits in its own try/except whose
handler is `pass` (line 293-294), so a raising run falls through; the
`os.path.exists` call is outside that inner try, so its exception
propagates. -/
def envBranch (env : RawEnv) : Except Unit (Option String) :=
  match env.popplerPathEnv with
  | none => .ok none
  | some dir => do
    let p := dir ++ "/pdftoppm"
    let ex ← env.pathExists p
    if ex then
      match env.run p "-v" with
      | .ok r => if r.hasVersion || r.returncode == 0 then pure (some p) else pure none
      | .error _ => pure none
    else pure none

/-- app.py lines 297-306: the ordered candidate list.  Building it calls
shutil.which twice; those calls can raise, which propagates to the outer
handler. -/
def candidateList (env : RawEnv) : Except Unit (List (Option String)) := do
  let w1 ← env.which "pdftoppm"
  let w2 ← env.which "pdftocairo"
  pure [w1, w2,
    some "/usr/bin/pdftoppm",
    some "/usr/local/bin/pdftoppm",
    some "/opt/homebrew/bin/pdftoppm",
    some "/app/.apt/usr/bin/pdftoppm",
    some "/app/.apt/usr/bin/pdftocairo",
    some "/usr/bin/pdftocairo"]

/-- app.py lines 308-329: one iteration of the candidate loop.
Returns `.ok (some p)` for `return path`, `.ok none` for falling through to
the next candidate.  Structure: skip a None candidate or a missing file;
try `-v` (line 313) — success with a passing test returns, success with a
failing test falls through; on exception try `--version` (line 320) with the
same logic; if that also raises, the bare-except handler (lines 324-329)
returns the path exactly when it equals the current PATH resolution of
pdftoppm or (short-circuit) pdftocairo, else continues.  The shutil.which
calls inside that handler can themselves raise, which propagates to the
outer handler; so can the `os.path.exists` call at line 309. -/
def loopCandidate (env : RawEnv) (cand : Option String) : Except Unit (Option String) :=
  match cand with
  | none => .ok none
  | some p => do
    let ex ← env.pathExists p
    if ex then
      match env.run p "-v" with
      | .ok r => if r.hasVersion || r.returncode == 0 then pure (some p) else pure none
      | .error _ =>
        match env.run p "--version" with
        | .ok r => if r.hasVersion || r.returncode == 0 then pure (some p) else pure none
        | .error _ => do
          let w1 ← env.which "pdftoppm"
          if some p = w1 then pure (some p)
          else do
            let w2 ← env.which "pdftocairo"
            if some p = w2 then pure (some p) else pure none
    else pure none

/-- The candidate loop: first `return path` wins, exhaustion falls through to
`return None` (app.py line 331). -/
def loopCandidates (env : RawEnv) : List (Option String) → Except Unit (Option String)
  | [] => .ok none
  | c :: rest => do
    match ← loopCandidate env c with
    | some p => pure (some p)
    | none => loopCandidates env rest

/-- The body of the outer try (app.py lines 280-331). -/
def checkPopplerBody (env : RawEnv) : Except Unit (Option String) := do
  match ← envBranch env with
  | some p => pure (some p)
  | none => do
    let cands ← candidateList env
    loopCandidates env cands

/-- app.py lines 334-338: the nested try of the outer except handler —
re-resolve pdftoppm via PATH and return it when it exists; any exception
here is caught by the nested bare except. -/
def handlerAttempt (env : RawEnv) : Except Unit (Option String) := do
  let sp? ← env.which "pdftoppm"
  match sp? with
  | none => pure none
  | some sp => do
    let ex ← env.pathExists sp
    if ex then pure (some sp) else pure none

/-- app.py lines 332-340: the outer except handler.  Its own which / exists
calls sit inside a nested try whose handler is `pass`; the final
`return None` is outside that nested try, so the handler as a whole always
returns normally. -/
def checkPopplerHandler (env : RawEnv) : Except Unit (Option String) :=
  match handlerAttempt env with
  | .ok r => .ok r
  | .error _ => .ok none

/-- check_poppler_available in full: run the body; any exception reaches the
outer handler. -/
def check_poppler_available_full (env : RawEnv) : Except Unit (Option String) :=
  match checkPopplerBody env with
  | .ok r => .ok r
  | .error _ => checkPopplerHandler env

/-- An environment whose outside-world calls never raise: the common case,
used for the determinism and candidate-acceptance claims. -/
structure PureEnv where
  popplerPathEnv : Option String
  whichP : String → Option String
  existsP : String → Bool
  runP : String → String → Option RunRes

/-- Lift a never-raising environment into the oracle form; a `none` result of
`runP` stands for the version-query invocation raising (timeout, OSError). -/
def toRaw (e : PureEnv) : RawEnv where
  popplerPathEnv := e.popplerPathEnv
  which := fun n => .ok (e.whichP n)
  pathExists := fun p => .ok (e.existsP p)
  run := fun p f =>
    match e.runP p f with
    | some r => .ok r
    | none => .error ()

/-- check_poppler_available over a never-raising environment. -/
def check_poppler_available (e : PureEnv) : Option String :=
  match check_poppler_available_full (toRaw e) with
  | .ok r => r
  | .error _ => none

/-! ## Rasterizer: convert_pdf_to_tiff (app.py lines 342-460) -/

/-- The compression branch of app.py lines 415-422: the three recognized
scheme names map to themselves, anything else (None included) maps to None. -/
def determineComp (compression : Option String) : Option String :=
  if compression = some "tiff_deflate" then some "tiff_deflate"
  else if compression = some "tiff_lzw" then some "tiff_lzw"
  else if compression = some "tiff_adobe_deflate" then some "tiff_adobe_deflate"
  else none

/-- The serialized TIFF artifact, as produced by the PIL save calls of
app.py lines 425-434: a single-frame save (no save_all / append_images), or
a multi-frame save of the first image with the remaining images appended.
Frames are identified by the page number the rasterization library assigned
them. -/
inductive TiffArtifact
  | singleFrame (img : Nat) (compression : Option String)
  | multiFrame (first : Nat) (appended : List Nat) (compression : Option String)
  deriving DecidableEq

/-- The ordered frames an artifact decodes to. -/
def TiffArtifact.frames : TiffArtifact → List Nat
  | .singleFrame i _ => [i]
  | .multiFrame i rest _ => i :: rest

/-- The compression scheme an artifact was written with. -/
def TiffArtifact.comp : TiffArtifact → Option String
  | .singleFrame _ c => c
  | .multiFrame _ _ c => c

/-- The outcome of one convert_from_bytes call: the ordered page images, or
the message of the exception it raised. -/
inductive RasterOutcome
  | ok (images : List Nat)
  | raises (msg : String)
  deriving DecidableEq

/-- The ambient state of one convert_pdf_to_tiff call: the value
check_poppler_available() returned, the filesystem probes, and the outcome
convert_from_bytes would have for each possible poppler_path argument
(`none` = called without the argument). -/
structure TiffEnv where
  popplerResult : Option String
  existsPath : String → Bool
  isDir : String → Bool
  raster : Option String → RasterOutcome

/-- The observable outcome of convert_pdf_to_tiff: the returned artifact
(None on error), st.error messages, st.info messages. -/
structure TiffResult where
  result : Option TiffArtifact
  errors : List String
  infos : List String
  deriving DecidableEq

/-- app.py line 352: the Streamlit Cloud heuristic. -/
def isStreamlitCloud (env : TiffEnv) : Bool :=
  env.existsPath "/app/.apt/usr/bin/pdftoppm"
    || env.existsPath "/app/.apt/usr/bin/pdftocairo"

/-- os.path.dirname for slash-separated paths. -/
def dirname (p : String) : String :=
  String.intercalate "/" ((p.splitOn "/").dropLast)

/-- app.py lines 378-383: poppler_dir from a found poppler_path — the
dirname, or the path itself when it is a directory. -/
def popplerDirOf (env : TiffEnv) : Option String → Option String
  | none => none
  | some p => if env.isDir p then some p else some (dirname p)

/-- app.py lines 386-391: when no directory was derived, probe the two
cloud-typical directories for a pdftoppm binary, first hit wins. -/
def cloudDirSearch (env : TiffEnv) : Option String :=
  if env.existsPath "/app/.apt/usr/bin/pdftoppm" then some "/app/.apt/usr/bin"
  else if env.existsPath "/usr/bin/pdftoppm" then some "/usr/bin"
  else none

/-- The poppler_path argument the first convert_from_bytes call actually
receives, given the poppler_path value in scope (lines 378-391 combined). -/
def effectiveDirFrom (env : TiffEnv) (popplerPath : Option String) : Option String :=
  match popplerDirOf env popplerPath with
  | some d => some d
  | none => cloudDirSearch env

/-- The poppler_path argument the executed convert_from_bytes call receives
for this environment, accounting for the availability gate (when the gate
passes, the in-scope poppler_path is exactly env.popplerResult). -/
def effectiveDir (env : TiffEnv) : Option String :=
  effectiveDirFrom env env.popplerResult

/-- app.py lines 393-406: the convert_from_bytes call with the retry — if the
first call raises and no directory was passed but the cloud binary exists,
retry with the cloud directory; a second failure re-raises the original
exception. -/
def rasterWithFallback (env : TiffEnv) (dir : Option String) : RasterOutcome :=
  match env.raster dir with
  | .ok imgs => .ok imgs
  | .raises e =>
    if dir = none ∧ env.existsPath "/app/.apt/usr/bin/pdftoppm" then
      match env.raster (some "/app/.apt/usr/bin") with
      | .ok imgs => .ok imgs
      | .raises _ => .raises e
    else .raises e

/-- app.py line 441: `"poppler" in error_str.lower() or "page count" in
error_str.lower()`, substring containment expressed through splitOn. -/
def popplerRelated (e : String) : Bool :=
  ((e.toLower).splitOn "poppler").length > 1
    || ((e.toLower).splitOn "page count").length > 1

/-- Stands for the multi-line installation-instructions message of app.py
lines 355-368 (abridged; the content is not semantically load-bearing). -/
def popplerMissingMsg : String :=
  "**Poppler is not installed or not in PATH.**"

/-- Stands for the multi-line troubleshooting message of app.py
lines 442-456 (abridged), keyed by the exception text. -/
def popplerErrMsg (e : String) : String :=
  "**Poppler Error: " ++ e ++ "**"

/-- app.py line 373. -/
def popplerDetectInfoMsg : String :=
  "⚠️ Poppler detection failed, but attempting conversion anyway (Poppler may still be available)..."

/-- app.py lines 376-437: everything after the availability gate, for the
poppler_path value left in scope by the gate.  Derive the directory, call the
rasterizer (with retry), classify a raised exception (lines 439-460), return
None for an empty image list (line 408), else serialize: a single image is
saved single-frame, several images are saved with save_all and the tail
appended (lines 425-434). -/
def convertCore (env : TiffEnv) (compression : Option String)
    (popplerPath : Option String) (infos : List String) : TiffResult :=
  let dir := effectiveDirFrom env popplerPath
  match rasterWithFallback env dir with
  | .raises e =>
    { result := none,
      errors := [if popplerRelated e then popplerErrMsg e
                 else "Error converting PDF to TIFF: " ++ e],
      infos := infos }
  | .ok images =>
    match images with
    | [] => { result := none, errors := [], infos := infos }
    | i :: rest =>
      let comp := determineComp compression
      { result := some (if rest = [] then .singleFrame i comp
                        else .multiFrame i rest comp),
        errors := [], infos := infos }

/-- app.py lines 342-460, convert_pdf_to_tiff.  The availability gate
(lines 346-374): if discovery found nothing and the environment does not look
like Streamlit Cloud, show the installation message and return None without
rasterizing; if it found nothing but the cloud markers exist, show the info
message and continue with poppler_path = None; otherwise continue with the
discovered path.  The dpi parameter is threaded to the rasterization oracle
implicitly (the oracle is fixed per call). -/
def convert_pdf_to_tiff (env : TiffEnv) (compression : Option String) : TiffResult :=
  match env.popplerResult with
  | none =>
    if !(isStreamlitCloud env) then
      { result := none, errors := [popplerMissingMsg], infos := [] }
    else
      convertCore env compression none [popplerDetectInfoMsg]
  | some p => convertCore env compression (some p) []

/-! ## Concrete instances used to exercise the theorems on closed inputs -/

/-- A slide with one text-bearing shape. -/
def wSlideA : Slide := ⟨[⟨true, "Hello"⟩]⟩

/-- A slide with no shapes at all. -/
def wSlideB : Slide := ⟨[]⟩

/-- A slide whose shapes carry no usable text: one whose text strips to
empty, one without a text attribute. -/
def wEmptySlide : Slide := ⟨[⟨true, " "⟩, ⟨false, "xyz"⟩]⟩

/-- A two-slide presentation. -/
def wPres : Pres := ⟨[wSlideA, wSlideB]⟩

/-- A well-formed .pptx upload that parses to wPres. -/
def wFileOk : UploadedFile := ⟨"talk.pptx", .ok wPres⟩

/-- A legacy .ppt upload; python-pptx would reject its contents. -/
def wPptFile : UploadedFile := ⟨"deck.ppt", .error "File is not a zip file"⟩

/-- A system environment with LibreOffice installed and succeeding, a
healthy remote endpoint, and no credential configured anywhere. -/
def wLoEnv : SysEnv where
  whichLibreoffice := some "/usr/bin/libreoffice"
  whichSoffice := none
  loRun := .completed 0 ""
  loOutputExists := true
  loOutputBytes := [37, 80, 68, 70]
  httpStatus := 200
  httpBody := ""
  httpContent := [80, 75]
  sessionApiKey := none
  envApiKey := none
  tmpName := "/tmp/stage.pptx"
  tmpDir := "/tmp/dirA"

/-- A locator environment: pdftoppm on PATH, files exist, every
version-query invocation raises. -/
def wLocEnv : PureEnv where
  popplerPathEnv := none
  whichP := fun n => if n = "pdftoppm" then some "/fake/pdftoppm" else none
  existsP := fun _ => true
  runP := fun _ _ => none

/-- A rasterizer environment: discovery found /usr/bin/pdftoppm and
convert_from_bytes yields two pages. -/
def wTiffEnv : TiffEnv where
  popplerResult := some "/usr/bin/pdftoppm"
  existsPath := fun _ => false
  isDir := fun _ => false
  raster := fun _ => .ok [1, 2]

/-! ## Story-structure lemmas for the text-extraction backend -/

theorem paraFlows_not_title_not_pb {t : String} {f : Flowable}
    (hf : f ∈ paraFlows t) : isTitle f = false ∧ isPageBreak f = false := by
  simp only [paraFlows, List.mem_flatMap] at hf
  obtain ⟨para, -, hmem⟩ := hf
  by_cases h : pyStrip para = ""
  · simp [h] at hmem
  · simp [h] at hmem
    rcases hmem with rfl | rfl <;> simp [isTitle, isPageBreak]

theorem slideBody_not_title_not_pb {sl : Slide} {f : Flowable}
    (hf : f ∈ slideBody sl) : isTitle f = false ∧ isPageBreak f = false := by
  unfold slideBody at hf
  by_cases h : shapeTexts sl = []
  · simp [h] at hf
    subst hf
    simp [isTitle, isPageBreak]
  · simp only [h, if_neg, List.mem_flatMap, if_false] at hf
    rcases hf with ⟨t, -, hmem⟩
    exact paraFlows_not_title_not_pb hmem

theorem filter_title_slideBody (sl : Slide) : (slideBody sl).filter isTitle = [] := by
  rw [List.filter_eq_nil_iff]
  intro f hf
  simp [(slideBody_not_title_not_pb hf).1]

theorem filter_pb_slideBody (sl : Slide) : (slideBody sl).filter isPageBreak = [] := by
  rw [List.filter_eq_nil_iff]
  intro f hf
  simp [(slideBody_not_title_not_pb hf).2]

theorem filter_title_slideSection (i : Nat) (sl : Slide) :
    (slideSection i sl).filter isTitle = [titlePara i] := by
  simp [slideSection, titlePara, isTitle, filter_title_slideBody sl]

theorem filter_pb_slideSection (i : Nat) (sl : Slide) :
    (slideSection i sl).filter isPageBreak = [] := by
  simp [slideSection, titlePara, isPageBreak, filter_pb_slideBody sl]

theorem storyFrom_filter_title : ∀ (slides : List Slide) (i : Nat),
    (storyFrom i slides).filter isTitle
      = (List.range slides.length).map (fun j => titlePara (i + j))
  | [], i => by simp [storyFrom]
  | sl :: rest, i => by
    have ih := storyFrom_filter_title rest (i + 1)
    have harg : (fun j => titlePara (i + 1 + j)) = (fun j => titlePara (i + (j + 1))) := by
      funext j
      rw [show i + 1 + j = i + (j + 1) from by omega]
    have hif : ((if 0 < i then [Flowable.pageBreak] else []).filter isTitle) = [] := by
      by_cases h : 0 < i <;> simp [h, isTitle]
    simp only [storyFrom, List.filter_append, hif, List.nil_append,
      filter_title_slideSection, ih, harg, List.length_cons,
      List.range_succ_eq_map, List.map_cons, List.map_map]
    simp [Function.comp_def]

theorem storyFrom_filter_pb_len : ∀ (slides : List Slide) (i : Nat), 0 < i →
    ((storyFrom i slides).filter isPageBreak).length = slides.length
  | [], _, _ => by simp [storyFrom]
  | sl :: rest, i, hi => by
    have ih := storyFrom_filter_pb_len rest (i + 1) (Nat.succ_pos i)
    simp [storyFrom, List.filter_append, filter_pb_slideSection, hi,
      isPageBreak, ih]

theorem buildStory_cons (s : Slide) (rest : List Slide) :
    buildStory (s :: rest) = slideSection 0 s ++ storyFrom 1 rest := by
  simp [buildStory, storyFrom]

/-! ## Claim theorems -/

/-- C3: for every valid (non-legacy) presentation input with N slides, the
text-extraction backend returns the document built from the story; the story
is the first slide section followed by the remaining loop output; the titled
sections are exactly Slide 1 .. Slide N in original slide order; exactly
N - 1 page breaks are emitted; no page break occurs in or before the first
section; and at every positive index the loop emits exactly one page break
immediately before that slide section. -/
theorem text_extraction_sections_structure
    (file : UploadedFile) (tmpName : String) (prs : Pres)
    (s : Slide) (rest : List Slide) (i : Nat) (sl : Slide) (r : List Slide)
    (hparse : file.parse = .ok prs)
    (hslides : prs.slides = s :: rest)
    (hext : pyLower (fileSuffix file.name) ≠ ".ppt")
    (hi : 0 < i) :
    (convert_pptx_to_pdf_text file tmpName).result
        = some (.builtFrom (buildStory (s :: rest))) ∧
    buildStory (s :: rest) = slideSection 0 s ++ storyFrom 1 rest ∧
    (buildStory (s :: rest)).filter isTitle
        = (List.range (s :: rest).length).map titlePara ∧
    ((buildStory (s :: rest)).filter isPageBreak).length = (s :: rest).length - 1 ∧
    (slideSection 0 s).filter isPageBreak = [] ∧
    storyFrom i (sl :: r)
        = Flowable.pageBreak :: (slideSection i sl ++ storyFrom (i + 1) r) := by
  refine ⟨?_, buildStory_cons s rest, ?_, ?_, filter_pb_slideSection 0 s, ?_⟩
  · simp [convert_pptx_to_pdf_text, hext, hparse, hslides]
  · have := storyFrom_filter_title (s :: rest) 0
    simpa [buildStory] using this
  · rw [buildStory_cons, List.filter_append, List.length_append,
      filter_pb_slideSection, storyFrom_filter_pb_len rest 1 Nat.one_pos]
    simp
  · simp [storyFrom, hi]

/-- Closed instance of text_extraction_sections_structure: the two-slide
presentation wPres uploaded as wFileOk, checked at slide index 1. -/
theorem text_extraction_sections_structure_witness :
    (wFileOk.parse = .ok wPres ∧ wPres.slides = wSlideA :: [wSlideB] ∧
     pyLower (fileSuffix wFileOk.name) ≠ ".ppt" ∧ 0 < 1) ∧
    ((convert_pptx_to_pdf_text wFileOk "/tmp/t1.pptx").result
        = some (.builtFrom (buildStory (wSlideA :: [wSlideB]))) ∧
     buildStory (wSlideA :: [wSlideB])
        = slideSection 0 wSlideA ++ storyFrom 1 [wSlideB] ∧
     (buildStory (wSlideA :: [wSlideB])).filter isTitle
        = (List.range (wSlideA :: [wSlideB]).length).map titlePara ∧
     ((buildStory (wSlideA :: [wSlideB])).filter isPageBreak).length
        = (wSlideA :: [wSlideB]).length - 1 ∧
     (slideSection 0 wSlideA).filter isPageBreak = [] ∧
     storyFrom 1 (wSlideB :: [])
        = Flowable.pageBreak :: (slideSection 1 wSlideB ++ storyFrom 2 [])) :=
  ⟨⟨rfl, rfl, by decide, by decide⟩,
   text_extraction_sections_structure wFileOk "/tmp/t1.pptx" wPres
     wSlideA [wSlideB] 1 wSlideB [] rfl rfl (by decide) (by decide)⟩

/-- C8 counterexample: on a slide with no text-bearing shapes the backend
emits the placeholder paragraph with text "(No text content on this slide)"
(capital N, app.py line 261), which differs from the marker
"(no text content on this slide)" stated by the claim; so the section body is
not the claimed marker paragraph. -/
theorem placeholder_marker_case_mismatch :
    slideBody ⟨[]⟩
        = [Flowable.paragraph "(No text content on this slide)" RStyle.body] ∧
    slideBody ⟨[]⟩
        ≠ [Flowable.paragraph "(no text content on this slide)" RStyle.body] := by
  constructor
  · rfl
  · decide

/-- C8 amended: each slide with no non-empty text content produces a section
whose body is exactly the placeholder paragraph
"(No text content on this slide)" — capital N as in the source — and nothing
else; the whole section is the title, the spacer, and that one paragraph. -/
theorem empty_slide_placeholder_section (sl : Slide) (i : Nat)
    (h : shapeTexts sl = []) :
    slideBody sl
        = [Flowable.paragraph "(No text content on this slide)" RStyle.body] ∧
    slideSection i sl
        = [titlePara i, Flowable.spacer 1 20,
           Flowable.paragraph "(No text content on this slide)" RStyle.body] := by
  constructor
  · simp [slideBody, h]
  · simp [slideSection, slideBody, h]

/-- Closed instance of empty_slide_placeholder_section: a slide whose shapes
have only whitespace text or no text attribute, at section index 2. -/
theorem empty_slide_placeholder_section_witness :
    shapeTexts wEmptySlide = [] ∧
    (slideBody wEmptySlide
        = [Flowable.paragraph "(No text content on this slide)" RStyle.body] ∧
     slideSection 2 wEmptySlide
        = [titlePara 2, Flowable.spacer 1 20,
           Flowable.paragraph "(No text content on this slide)" RStyle.body]) :=
  ⟨by decide, empty_slide_placeholder_section wEmptySlide 2 (by decide)⟩

/-- C2 (bug evidence): the text backend stages the upload into
NamedTemporaryFile(delete=False) and unlinks it only on the success path
(app.py line 268); on the .ppt rejection path the exception handler returns
None without unlinking, so the staged temporary file is still on the
filesystem after the call returns, contradicting the all-exit-paths cleanup
guarantee. -/
theorem text_backend_tempfile_left_on_ppt_path :
    (convert_pptx_to_pdf_text wPptFile "/tmp/tmpabc123.pptx").tempLeft
        = ["/tmp/tmpabc123.pptx"] ∧
    (convert_pptx_to_pdf_text wPptFile "/tmp/tmpabc123.pptx").result = none := by
  decide

/-- Helper: whatever happens inside the LibreOffice backend, the external
calls it makes are subprocess invocations, never HTTP requests. -/
theorem lo_calls_no_http (env : SysEnv) (file : UploadedFile) :
    (convert_pptx_to_pdf_libreoffice env file).calls.all
      (fun c => !c.isHttpPost) = true := by
  unfold convert_pptx_to_pdf_libreoffice
  cases loBinary env with
  | none => rfl
  | some p =>
    cases env.loRun with
    | timeout => simp [ExtCall.isHttpPost]
    | completed rc stderr =>
      by_cases h : rc ≠ 0
      · simp [h, ExtCall.isHttpPost]
      · by_cases h2 : env.loOutputExists <;> simp [h, h2, ExtCall.isHttpPost]

/-- Helper: with a falsy session credential and a falsy environment
credential, the assembled api_key value is falsy. -/
theorem orFalsy_falsy {a b : Option String}
    (ha : falsy a = true) (hb : falsy b = true) : falsy (orFalsy a b) = true := by
  cases a with
  | none => simpa [orFalsy] using hb
  | some s =>
    simp only [falsy] at ha
    simpa [orFalsy, ha] using hb

/-- C1: a presentation-to-PDF request with method api and no credential
configured — session value falsy, CONVERSION_API_KEY falsy — is served by
the LibreOffice backend: the returned value and the reported errors are
exactly those of convert_pptx_to_pdf_libreoffice on the same input, the
substitution warning is shown to the caller, and no HTTP request is made;
in particular the absent credential alone produces no failure. -/
theorem remoteApi_missing_credential_fallback
    (env : SysEnv) (file : UploadedFile)
    (hs : falsy env.sessionApiKey = true)
    (he : falsy env.envApiKey = true) :
    (convert_pptx_to_pdf env file "api").result
        = (convert_pptx_to_pdf_libreoffice env file).result ∧
    (convert_pptx_to_pdf env file "api").errors
        = (convert_pptx_to_pdf_libreoffice env file).errors ∧
    apiKeyWarningMsg ∈ (convert_pptx_to_pdf env file "api").warnings ∧
    (convert_pptx_to_pdf env file "api").calls.all
        (fun c => !c.isHttpPost) = true := by
  have hkey : falsy (orFalsy env.sessionApiKey env.envApiKey) = true :=
    orFalsy_falsy hs he
  have hdisp : convert_pptx_to_pdf env file "api"
      = convert_pptx_to_pdf_api env file (orFalsy env.sessionApiKey env.envApiKey) := by
    simp [convert_pptx_to_pdf]
  have hapi : convert_pptx_to_pdf_api env file (orFalsy env.sessionApiKey env.envApiKey)
      = { convert_pptx_to_pdf_libreoffice env file with
          warnings := apiKeyWarningMsg
            :: (convert_pptx_to_pdf_libreoffice env file).warnings } := by
    simp [convert_pptx_to_pdf_api, hkey]
  rw [hdisp, hapi]
  exact ⟨rfl, rfl, List.mem_cons_self _ _, lo_calls_no_http env file⟩

/-- Closed instance of remoteApi_missing_credential_fallback: wLoEnv has no
credential in the session or the environment, and LibreOffice installed. -/
theorem remoteApi_missing_credential_fallback_witness :
    (falsy wLoEnv.sessionApiKey = true ∧ falsy wLoEnv.envApiKey = true) ∧
    ((convert_pptx_to_pdf wLoEnv wFileOk "api").result
        = (convert_pptx_to_pdf_libreoffice wLoEnv wFileOk).result ∧
     (convert_pptx_to_pdf wLoEnv wFileOk "api").errors
        = (convert_pptx_to_pdf_libreoffice wLoEnv wFileOk).errors ∧
     apiKeyWarningMsg ∈ (convert_pptx_to_pdf wLoEnv wFileOk "api").warnings ∧
     (convert_pptx_to_pdf wLoEnv wFileOk "api").calls.all
        (fun c => !c.isHttpPost) = true) :=
  ⟨⟨rfl, rfl⟩,
   remoteApi_missing_credential_fallback wLoEnv wFileOk rfl rfl⟩

/-- C4 counterexample: a legacy .ppt upload handed to the LibreOffice
backend in an environment where the suite is installed and succeeds: the
backend spawns its subprocess, reports no failure at all — in particular no
unsupported-format failure — and returns the converted bytes.  So it is not
the case that every backend reports an unsupported-format failure before
making an external call on .ppt input. -/
theorem libreoffice_converts_ppt_without_rejection :
    (convert_pptx_to_pdf_libreoffice wLoEnv wPptFile).calls ≠ [] ∧
    (convert_pptx_to_pdf_libreoffice wLoEnv wPptFile).errors = [] ∧
    (convert_pptx_to_pdf_libreoffice wLoEnv wPptFile).result
        = some (.fileBytes [37, 80, 68, 70]) := by
  decide

/-- C4 amended: only the TextExtraction backend rejects legacy .ppt inputs —
it returns None with the unsupported-format message and makes no external
call; the HeadlessOfficeSuite and RemoteAPI backends perform no
legacy-format check: whenever their own prerequisite holds (suite binary
found, credential truthy) they proceed with their external call — the
subprocess invocation, the HTTP upload — for any input name, .ppt
included. -/
theorem legacy_ppt_rejection_only_text_backend
    (file file2 file3 : UploadedFile) (tmpName : String)
    (env env2 : SysEnv) (p : String) (key : Option String)
    (hppt : pyLower (fileSuffix file.name) = ".ppt")
    (hlo : loBinary env = some p)
    (hkey : falsy key = false) :
    (convert_pptx_to_pdf_text file tmpName).result = none ∧
    (convert_pptx_to_pdf_text file tmpName).errors
        = [textBackendError pptUnsupportedMsg] ∧
    (convert_pptx_to_pdf_text file tmpName).calls = [] ∧
    (convert_pptx_to_pdf_libreoffice env file2).calls
        = [ExtCall.subprocessRun [p, "--headless", "--convert-to", "pdf",
            "--outdir", env.tmpDir, env.tmpDir ++ "/" ++ file2.name]] ∧
    (convert_pptx_to_pdf_api env2 file3 key).calls
        = [ExtCall.httpPost cloudconvertUrl] := by
  refine ⟨?_, ?_, ?_, ?_, ?_⟩
  · simp [convert_pptx_to_pdf_text, hppt]
  · simp [convert_pptx_to_pdf_text, hppt]
  · simp [convert_pptx_to_pdf_text, hppt]
  · unfold convert_pptx_to_pdf_libreoffice
    rw [hlo]
    cases env.loRun with
    | timeout => rfl
    | completed rc stderr =>
      by_cases h : rc ≠ 0
      · simp [h]
      · by_cases h2 : env.loOutputExists <;> simp [h, h2]
  · unfold convert_pptx_to_pdf_api
    rw [hkey]
    by_cases h : env2.httpStatus ≠ 200 <;> simp [h]

/-- Closed instance of legacy_ppt_rejection_only_text_backend at a .ppt
upload, the wLoEnv environment and a truthy credential. -/
theorem legacy_ppt_rejection_only_text_backend_witness :
    (pyLower (fileSuffix wPptFile.name) = ".ppt" ∧
     loBinary wLoEnv = some "/usr/bin/libreoffice" ∧
     falsy (some "secret-key") = false) ∧
    ((convert_pptx_to_pdf_text wPptFile "/tmp/t2.pptx").result = none ∧
     (convert_pptx_to_pdf_text wPptFile "/tmp/t2.pptx").errors
        = [textBackendError pptUnsupportedMsg] ∧
     (convert_pptx_to_pdf_text wPptFile "/tmp/t2.pptx").calls = [] ∧
     (convert_pptx_to_pdf_libreoffice wLoEnv wPptFile).calls
        = [ExtCall.subprocessRun ["/usr/bin/libreoffice", "--headless",
            "--convert-to", "pdf", "--outdir", wLoEnv.tmpDir,
            wLoEnv.tmpDir ++ "/" ++ wPptFile.name]] ∧
     (convert_pptx_to_pdf_api wLoEnv wPptFile (some "secret-key")).calls
        = [ExtCall.httpPost cloudconvertUrl]) :=
  ⟨⟨by decide, rfl, rfl⟩,
   legacy_ppt_rejection_only_text_backend wPptFile wPptFile wPptFile
     "/tmp/t2.pptx" wLoEnv wLoEnv "/usr/bin/libreoffice" (some "secret-key")
     (by decide) rfl rfl⟩

/-- C5: check_poppler_available never raises to its caller — for every
environment, including ones whose which / exists / subprocess calls all
raise, the function returns normally (an Except.ok value): a genuinely
unavailable toolset is the normal None return, never a propagated
exception. -/
theorem check_poppler_available_never_raises (env : RawEnv) :
    ∃ r, check_poppler_available_full env = .ok r := by
  unfold check_poppler_available_full
  cases h : checkPopplerBody env with
  | ok r => exact ⟨r, rfl⟩
  | error e =>
    cases h2 : handlerAttempt env with
    | ok r => exact ⟨r, by simp [checkPopplerHandler, h2]⟩
    | error e2 => exact ⟨none, by simp [checkPopplerHandler, h2]⟩

/-- C6: for a candidate path whose version-query invocations both raise, one
iteration of the candidate loop accepts and returns the path exactly when
the file exists and the path is what PATH lookup currently resolves pdftoppm
or pdftocairo to; an existing candidate that is not the PATH resolution of
either binary is skipped, not accepted. -/
theorem loop_candidate_exec_failure_path_acceptance
    (e : PureEnv) (p : String)
    (h1 : e.runP p "-v" = none)
    (h2 : e.runP p "--version" = none) :
    (loopCandidate (toRaw e) (some p) = .ok (some p)
      ↔ (e.existsP p = true ∧
          (some p = e.whichP "pdftoppm" ∨ some p = e.whichP "pdftocairo"))) ∧
    (e.existsP p = true → some p ≠ e.whichP "pdftoppm" →
      some p ≠ e.whichP "pdftocairo" →
      loopCandidate (toRaw e) (some p) = .ok none) := by
  have hred : loopCandidate (toRaw e) (some p)
      = if e.existsP p then
          (if some p = e.whichP "pdftoppm" then Except.ok (some p)
           else if some p = e.whichP "pdftocairo" then Except.ok (some p)
           else Except.ok none)
        else Except.ok none := by
    simp only [loopCandidate, toRaw, h1, h2, bind, Except.bind, pure, Except.pure]
  constructor
  · rw [hred]
    by_cases hex : e.existsP p
    · by_cases hw1 : some p = e.whichP "pdftoppm"
      · simp [hex, hw1]
      · by_cases hw2 : some p = e.whichP "pdftocairo" <;> simp [hex, hw1, hw2]
    · simp [hex]
  · intro hex hw1 hw2
    rw [hred]
    simp [hex, hw1, hw2]

/-- Closed instance of loop_candidate_exec_failure_path_acceptance: the
wLocEnv environment, whose version queries always raise, probed at the path
PATH lookup resolves pdftoppm to. -/
theorem loop_candidate_exec_failure_path_acceptance_witness :
    (wLocEnv.runP "/fake/pdftoppm" "-v" = none ∧
     wLocEnv.runP "/fake/pdftoppm" "--version" = none) ∧
    ((loopCandidate (toRaw wLocEnv) (some "/fake/pdftoppm")
        = .ok (some "/fake/pdftoppm")
      ↔ (wLocEnv.existsP "/fake/pdftoppm" = true ∧
          (some "/fake/pdftoppm" = wLocEnv.whichP "pdftoppm" ∨
           some "/fake/pdftoppm" = wLocEnv.whichP "pdftocairo"))) ∧
     (wLocEnv.existsP "/fake/pdftoppm" = true →
      some "/fake/pdftoppm" ≠ wLocEnv.whichP "pdftoppm" →
      some "/fake/pdftoppm" ≠ wLocEnv.whichP "pdftocairo" →
      loopCandidate (toRaw wLocEnv) (some "/fake/pdftoppm") = .ok none)) :=
  ⟨⟨rfl, rfl⟩,
   loop_candidate_exec_failure_path_acceptance wLocEnv "/fake/pdftoppm" rfl rfl⟩

/-- C9: backend discovery is deterministic: two calls to
check_poppler_available within one process run see no mutable process state
besides the environment and filesystem, so if those are unchanged between
the calls the two results are equal. -/
theorem check_poppler_available_idempotent (e1 e2 : PureEnv) (h : e1 = e2) :
    check_poppler_available e1 = check_poppler_available e2 := by
  rw [h]

/-- Closed instance of check_poppler_available_idempotent on wLocEnv. -/
theorem check_poppler_available_idempotent_witness :
    wLocEnv = wLocEnv ∧
    check_poppler_available wLocEnv = check_poppler_available wLocEnv :=
  ⟨rfl, check_poppler_available_idempotent wLocEnv wLocEnv rfl⟩

/-- Helper: when the availability gate passes (a path was discovered, or the
cloud markers exist) and the executed convert_from_bytes call succeeds with
a non-empty page list, convert_pdf_to_tiff returns the serialized artifact,
no errors, and the info message exactly in the detection-failed-on-cloud
case. -/
theorem convert_pdf_to_tiff_success
    (env : TiffEnv) (c : Option String) (i : Nat) (rest : List Nat)
    (hr : env.raster (effectiveDir env) = .ok (i :: rest))
    (hp : env.popplerResult.isSome = true ∨ isStreamlitCloud env = true) :
    convert_pdf_to_tiff env c
      = { result := some (if rest = [] then .singleFrame i (determineComp c)
                          else .multiFrame i rest (determineComp c)),
          errors := [],
          infos := match env.popplerResult with
                   | some _ => []
                   | none => [popplerDetectInfoMsg] } := by
  cases hpp : env.popplerResult with
  | some p =>
    have hr2 : env.raster (effectiveDirFrom env (some p)) = .ok (i :: rest) := by
      rw [effectiveDir, hpp] at hr
      exact hr
    simp [convert_pdf_to_tiff, hpp, convertCore, rasterWithFallback, hr2]
  | none =>
    have hcloud : isStreamlitCloud env = true := by
      rcases hp with h | h
      · rw [hpp] at h
        simp at h
      · exact h
    have hr2 : env.raster (effectiveDirFrom env none) = .ok (i :: rest) := by
      rw [effectiveDir, hpp] at hr
      exact hr
    simp [convert_pdf_to_tiff, hpp, hcloud, convertCore, rasterWithFallback, hr2]

/-- C7: when the rasterizer succeeds with pages i :: rest at the requested
settings, the output artifact decodes to exactly those frames in page order;
a single page is saved as a single-frame image (no append mode), several
pages are saved as the first frame with pages 2..P appended after it. -/
theorem convert_pdf_to_tiff_frame_structure
    (env : TiffEnv) (c : Option String) (i : Nat) (rest : List Nat)
    (hr : env.raster (effectiveDir env) = .ok (i :: rest))
    (hp : env.popplerResult.isSome = true ∨ isStreamlitCloud env = true) :
    (convert_pdf_to_tiff env c).result
        = some (if rest = [] then TiffArtifact.singleFrame i (determineComp c)
                else TiffArtifact.multiFrame i rest (determineComp c)) ∧
    (convert_pdf_to_tiff env c).errors = [] ∧
    (if rest = [] then TiffArtifact.singleFrame i (determineComp c)
     else TiffArtifact.multiFrame i rest (determineComp c)).frames
        = i :: rest := by
  rw [convert_pdf_to_tiff_success env c i rest hr hp]
  refine ⟨rfl, rfl, ?_⟩
  by_cases h : rest = [] <;> simp [h, TiffArtifact.frames]

/-- Closed instance of convert_pdf_to_tiff_frame_structure: wTiffEnv
rasterizes to two pages, saved with the deflate scheme. -/
theorem convert_pdf_to_tiff_frame_structure_witness :
    (wTiffEnv.raster (effectiveDir wTiffEnv) = .ok (1 :: [2]) ∧
     (wTiffEnv.popplerResult.isSome = true ∨ isStreamlitCloud wTiffEnv = true)) ∧
    ((convert_pdf_to_tiff wTiffEnv (some "tiff_deflate")).result
        = some (if ([2] : List Nat) = []
                then TiffArtifact.singleFrame 1 (determineComp (some "tiff_deflate"))
                else TiffArtifact.multiFrame 1 [2] (determineComp (some "tiff_deflate"))) ∧
     (convert_pdf_to_tiff wTiffEnv (some "tiff_deflate")).errors = [] ∧
     (if ([2] : List Nat) = []
      then TiffArtifact.singleFrame 1 (determineComp (some "tiff_deflate"))
      else TiffArtifact.multiFrame 1 [2] (determineComp (some "tiff_deflate"))).frames
        = 1 :: [2]) :=
  ⟨⟨rfl, Or.inl rfl⟩,
   convert_pdf_to_tiff_frame_structure wTiffEnv (some "tiff_deflate") 1 [2]
     rfl (Or.inl rfl)⟩

/-- C10: a compression argument that is none of the three recognized scheme
names — None included — makes the artifact be written with compression
scheme None (uncompressed), and the conversion reports no error for the
unknown value. -/
theorem unknown_compression_uncompressed
    (env : TiffEnv) (c : Option String) (i : Nat) (rest : List Nat)
    (hr : env.raster (effectiveDir env) = .ok (i :: rest))
    (hp : env.popplerResult.isSome = true ∨ isStreamlitCloud env = true)
    (h1 : c ≠ some "tiff_deflate") (h2 : c ≠ some "tiff_lzw")
    (h3 : c ≠ some "tiff_adobe_deflate") :
    determineComp c = none ∧
    (convert_pdf_to_tiff env c).errors = [] ∧
    (convert_pdf_to_tiff env c).result
        = some (if rest = [] then TiffArtifact.singleFrame i none
                else TiffArtifact.multiFrame i rest none) := by
  have hd : determineComp c = none := by
    simp [determineComp, h1, h2, h3]
  rw [convert_pdf_to_tiff_success env c i rest hr hp]
  exact ⟨hd, rfl, by simp [hd]⟩

/-- Closed instance of unknown_compression_uncompressed: the unrecognized
compression value zip on wTiffEnv. -/
theorem unknown_compression_uncompressed_witness :
    (wTiffEnv.raster (effectiveDir wTiffEnv) = .ok (1 :: [2]) ∧
     (wTiffEnv.popplerResult.isSome = true ∨ isStreamlitCloud wTiffEnv = true) ∧
     some "zip" ≠ some "tiff_deflate" ∧ some "zip" ≠ some "tiff_lzw" ∧
     some "zip" ≠ some "tiff_adobe_deflate") ∧
    (determineComp (some "zip") = none ∧
     (convert_pdf_to_tiff wTiffEnv (some "zip")).errors = [] ∧
     (convert_pdf_to_tiff wTiffEnv (some "zip")).result
        = some (if ([2] : List Nat) = [] then TiffArtifact.singleFrame 1 none
                else TiffArtifact.multiFrame 1 [2] none)) :=
  ⟨⟨rfl, Or.inl rfl, by decide, by decide, by decide⟩,
   unknown_compression_uncompressed wTiffEnv (some "zip") 1 [2] rfl
     (Or.inl rfl) (by decide) (by decide) (by decide)⟩

end PdfTool
